import Mathlib

/-! OpenARK 3D reconstruction demo (`3DReconDemo.cpp`): embedding and properties.

The demo wires a SLAM system, a moving TSDF volume and a mesh viewer together with
callbacks that share two variables, `frame_counter` and `do_integration`.

Conventions of the embedding:

* Calls into the external collaborators (volume, viewer, SLAM system, frame saver) are
  recorded, in program order, in a trace of `Event`s; values they return
  (`GetTriangleMeshes`, `getMappedTrajectory`, `clicked`) are inputs of the handlers.
* Reads whose C++ behaviour is undefined (`std::vector::operator[]` or `cv::Mat::at`
  outside the container) end the run with a `Fault`; a handler is a function into
  `Except Fault Pipeline`.
* Poses, vertices and colours are only copied by this file, never computed with: they
  are symbolic values.
* `frame_counter` is an `Int` and `%` on it is the truncating C++ remainder
  (`Int.tmod`). Container sizes and loop indices are natural numbers; the containers
  of this program hold far fewer than `2^31` elements, so the `int` loop indices do
  not wrap. The one place where unsigned wrap-around is reachable, `size() - 1` on an
  empty vector, is modelled modulo `2^64`.
-/

namespace ReconDemo

/-! ## Values -/

abbrev uint8_t := Fin 256

abbrev uint16_t := Fin 65536

/-- Value of `cv::Vec3b`: the three 8-bit channels of a colour pixel. -/
structure Vec3b where
  c0 : uint8_t
  c1 : uint8_t
  c2 : uint8_t
  deriving DecidableEq, Repr

/-- Channel access `pixel[c]` for `c = 0, 1, 2`. -/
def Vec3b.get (p : Vec3b) (c : Nat) : uint8_t :=
  match c with
  | 0 => p.c0
  | 1 => p.c1
  | _ => p.c2

/-- Symbolic `Eigen::Matrix4d`: a named pose, or the inverse of one. -/
inductive Matrix4d where
  | pose (id : Nat)
  | inverse (m : Matrix4d)
  deriving DecidableEq, Repr

/-- Symbolic `Eigen::Vector3d` (a vertex position or a vertex colour). -/
structure Vector3d where
  x : Int
  y : Int
  z : Int
  deriving DecidableEq, Repr

/-- Symbolic `Eigen::Vector3i` (the three vertex indices of a triangle). -/
structure Vector3i where
  a : Int
  b : Int
  c : Int
  deriving DecidableEq, Repr

/-- The fields of `open3d::geometry::TriangleMesh` the demo reads. -/
structure TriangleMesh where
  vertices_ : List Vector3d
  vertex_colors_ : List Vector3d
  triangles_ : List Vector3i
  deriving DecidableEq, Repr

/-- Undefined reads, as run-ending faults. -/
inductive Fault where
  /-- Read `cv::Mat::at(row, col)` outside a `rows x cols` matrix. -/
  | mat_at_out_of_range (row col rows cols : Nat)
  /-- Read `std::vector::operator[]` with `index >= size`. -/
  | vector_out_of_range (index size : Nat)
  deriving DecidableEq, Repr

/-! ## The C `for` loop -/

/-- Loop `for (int i = start; count more iterations; i++) body`, stopping at the
first fault. `forLoop body 0 n` is `for (int i = 0; i < n; i++) body`. -/
def forLoop {σ : Type} (body : Nat → σ → Except Fault σ) : Nat → Nat → σ → Except Fault σ
  | _, 0, s => .ok s
  | i, n + 1, s =>
    match body i s with
    | .ok s' => forLoop body (i + 1) n s'
    | .error e => .error e

/-! ## Image conversion (`generateRGBDImageFromCV`, lines 19-55) -/

/-- A `cv::Mat` with elements of type `α`: its dimensions and its element at each
row and column. -/
structure Mat (α : Type) where
  rows : Nat
  cols : Nat
  elem : Nat → Nat → α

/-- Access `m.at<α>(i, k)`. OpenCV requires `i < rows` and `k < cols`; outside it the
read is undefined. -/
def Mat.at {α : Type} (m : Mat α) (i k : Nat) : Except Fault α :=
  if i < m.rows ∧ k < m.cols then .ok (m.elem i k)
  else .error (Fault.mat_at_out_of_range i k m.rows m.cols)

/-- An `open3d::geometry::Image` seen through a pointer to elements of type `α`
(`uint8_t*` for the colour image, `uint16_t*` for the depth image). -/
structure Image (α : Type) where
  width_ : Nat
  height_ : Nat
  num_of_channels_ : Nat
  bytes_per_channel_ : Nat
  data_ : List α
  deriving DecidableEq, Repr

/-- Call `Prepare(width, height, num_of_channels, bytes_per_channel)`: sets the
dimensions and allocates zeroed storage, `width * height * num_of_channels` elements
of `bytes_per_channel` bytes each. -/
def Image.Prepare {α : Type} (zero : α) (width height num_of_channels bytes_per_channel : Nat) :
    Image α :=
  { width_ := width, height_ := height, num_of_channels_ := num_of_channels,
    bytes_per_channel_ := bytes_per_channel,
    data_ := List.replicate (width * height * num_of_channels) zero }

/-- A buffer together with a write pointer into it (`pi`, `p` in the source). -/
structure Cursor (α : Type) where
  data : List α
  pos : Nat

/-- Statement `*p++ = v`. -/
def Cursor.put {α : Type} (cur : Cursor α) (v : α) : Cursor α :=
  { data := cur.data.set cur.pos v, pos := cur.pos + 1 }

/-- The colour loops, lines 29-38. -/
def copyColor (color_mat : Mat Vec3b) (height width : Nat) (cur : Cursor uint8_t) :
    Except Fault (Cursor uint8_t) :=
  forLoop (fun i cur =>
    forLoop (fun k cur =>
      match color_mat.at i k with
      | .ok pixel => .ok (((cur.put (pixel.get 0)).put (pixel.get 1)).put (pixel.get 2))
      | .error e => .error e) 0 width cur) 0 height cur

/-- The depth loops, lines 46-50. -/
def copyDepth (depth_mat : Mat uint16_t) (height width : Nat) (cur : Cursor uint16_t) :
    Except Fault (Cursor uint16_t) :=
  forLoop (fun i cur =>
    forLoop (fun k cur =>
      match depth_mat.at i k with
      | .ok d => .ok (cur.put d)
      | .error e => .error e) 0 width cur) 0 height cur

/-- The arguments handed to `open3d::geometry::RGBDImage::CreateFromColorAndDepth`
(an Open3D routine): the two images built by the bridge, the depth scale, the depth
truncation and the intensity flag. -/
structure RGBDImage where
  color : Image uint8_t
  depth : Image uint16_t
  depth_scale : Nat
  depth_trunc : Nat
  convert_rgb_to_intensity : Bool
  deriving DecidableEq, Repr

/-- Function `generateRGBDImageFromCV`, lines 19-55. -/
def generateRGBDImageFromCV (color_mat : Mat Vec3b) (depth_mat : Mat uint16_t) :
    Except Fault RGBDImage :=
  let height := 480
  let width := 640
  let color_im : Image uint8_t := Image.Prepare 0 width height 3 1
  match copyColor color_mat height width { data := color_im.data_, pos := 0 } with
  | .error e => .error e
  | .ok pi =>
    let depth_im : Image uint16_t := Image.Prepare 0 width height 1 2
    match copyDepth depth_mat height width { data := depth_im.data_, pos := 0 } with
    | .error e => .error e
    | .ok p =>
      .ok { color := { color_im with data_ := pi.data },
            depth := { depth_im with data_ := p.data },
            depth_scale := 1000, depth_trunc := 5, convert_rgb_to_intensity := false }

/-! ## Collaborators and pipeline state -/

/-- The `open3d::camera::PinholeCameraIntrinsic` captured by the integration handler
(line 140); the four camera parameters are symbolic. -/
structure PinholeCameraIntrinsic where
  width : Nat
  height : Nat
  fx : Int
  fy : Int
  cx : Int
  cy : Int
  deriving DecidableEq, Repr

/-- The parts of a `MultiCameraFrame` the handlers read: the frame id, the pose
`T_WS()`, and the images returned by `getImage(_, 3)` (colour) and `getImage(_, 4)`
(depth). -/
structure MultiCameraFrame where
  frameId_ : Int
  T_WS : Matrix4d
  color_image : Mat Vec3b
  depth_image : Mat uint16_t

/-- A `std::map<int, Eigen::Matrix4d>`: bindings in increasing key order, one per
key. -/
abbrev KeyFrameMap := List (Int × Matrix4d)

/-- Call `std::map::insert(std::pair(k, v))`: adds the binding unless the key is
already bound, in which case the map is left as it is. -/
def KeyFrameMap.insert : KeyFrameMap → Int × Matrix4d → KeyFrameMap
  | [], kv => [kv]
  | (k', v') :: rest, (k, v) =>
    if k < k' then (k, v) :: (k', v') :: rest
    else if k = k' then (k', v') :: rest
    else (k', v') :: KeyFrameMap.insert rest (k, v)

/-- A call made on one of the captured collaborators: the volume `tsdf_volume`, the
viewer objects `mesh_obj` and `mesh_win`, the SLAM system `slam`, the frame saver
`saveFrame`, and the Open3D mesh writer. -/
inductive Event where
  | Integrate (image : RGBDImage) (intrinsic : PinholeCameraIntrinsic) (extrinsic : Matrix4d)
  | GetTriangleMeshes
  | UpdateKeyFrames (keyframemap : KeyFrameMap)
  | ExtractTotalTriangleMesh
  | get_number_meshes
  | update_active_mesh (vertices colors : List Vector3d) (triangles : List Vector3i)
      (transform : Matrix4d)
  | update_transforms (transforms : List Matrix4d)
  | update_mesh_vector (vertices colors : List (List Vector3d))
      (triangles : List (List Vector3i)) (transforms : List Matrix4d)
  | set_transform (transform : Matrix4d)
  | clicked (result : Bool)
  | getMappedTrajectory
  | SaveFrame_updateTransforms (keyframemap : KeyFrameMap)
  | WriteTriangleMeshToPLY
  | ShutDown
  deriving DecidableEq, Repr

/-- Modelled from the spec: the viewer class `MyGUI::Mesh` (declared in
`glfwManager.h`, which is not among the sources). Its tracked mesh count is the size
of the last list pushed by `update_mesh_vector`, initially 0. -/
structure Mesh where
  number_meshes : Nat
  deriving DecidableEq, Repr

/-- Modelled from the spec: `MyGUI::Mesh::get_number_meshes`, the tracked count. -/
def Mesh.get_number_meshes (m : Mesh) : Nat := m.number_meshes

/-- Modelled from the spec: `MyGUI::Mesh::update_mesh_vector` (the full push) makes
the tracked count the size of the pushed list. -/
def Mesh.update_mesh_vector (_m : Mesh) (mesh_vertices : List (List Vector3d)) : Mesh :=
  { number_meshes := mesh_vertices.length }

/-- The variables shared by the callbacks of `main` (`frame_counter`,
`do_integration`, `vis_mesh`, `mesh_obj`) and the trace of calls made so far. -/
structure Pipeline where
  frame_counter : Int
  do_integration : Bool
  vis_mesh : List (TriangleMesh × Matrix4d)
  mesh_obj : Mesh
  trace : List Event
  deriving DecidableEq, Repr

/-- The state set up by `main` before the first frame (lines 113-114, 164, 168). -/
def Pipeline.initial : Pipeline :=
  { frame_counter := 1, do_integration := true, vis_mesh := [],
    mesh_obj := { number_meshes := 0 }, trace := [] }

/-- Records one call. -/
def Pipeline.emit (s : Pipeline) (e : Event) : Pipeline :=
  { s with trace := s.trace ++ [e] }

/-- Statement `frame_counter++` of the acquisition loop (line 281). -/
def Pipeline.tick (s : Pipeline) : Pipeline :=
  { s with frame_counter := s.frame_counter + 1 }

/-! ## Handlers -/

/-- Callback `tsdfFrameHandler`, lines 142-159. -/
def tsdfFrameHandler (intr : PinholeCameraIntrinsic) (frame : MultiCameraFrame)
    (s : Pipeline) : Except Fault Pipeline :=
  if !s.do_integration || s.frame_counter.tmod 3 != 0 then .ok s
  else
    let color_mat := frame.color_image
    let depth_mat := frame.depth_image
    match generateRGBDImageFromCV color_mat depth_mat with
    | .error e => .error e
    | .ok rgbd_image => .ok (s.emit (Event.Integrate rgbd_image intr (Matrix4d.inverse frame.T_WS)))

/-- Index expression `vis_mesh.size() - 1` in 64-bit `size_t` arithmetic: the
subtraction wraps to `2^64 - 1` when the size is 0 (for the sizes a `std::vector` can
have, those below `2^64`, this is `(size + 2^64 - 1) % 2^64`). -/
def lastIndex (size : Nat) : Nat := if size = 0 then 2 ^ 64 - 1 else size - 1

/-- Read `v[i]` of a `std::vector`. -/
def vectorAt {α : Type} (v : List α) (i : Nat) : Except Fault α :=
  match v[i]? with
  | some x => .ok x
  | none => .error (Fault.vector_out_of_range i v.length)

/-- The loop of lines 189-191. -/
def collectTransforms (vis_mesh : List (TriangleMesh × Matrix4d)) :
    Except Fault (List Matrix4d) :=
  forLoop (fun i mesh_transforms =>
    match vectorAt vis_mesh i with
    | .ok entry => .ok (mesh_transforms ++ [entry.2])
    | .error e => .error e) 0 vis_mesh.length []

/-- The four vectors filled by the loop of lines 201-207. -/
structure MeshVectors where
  mesh_vertices : List (List Vector3d)
  mesh_colors : List (List Vector3d)
  mesh_triangles : List (List Vector3i)
  mesh_transforms : List Matrix4d
  deriving DecidableEq, Repr

/-- The loop of lines 201-207. -/
def collectAll (vis_mesh : List (TriangleMesh × Matrix4d)) : Except Fault MeshVectors :=
  forLoop (fun i acc =>
    match vectorAt vis_mesh i with
    | .ok mesh =>
      .ok { mesh_vertices := acc.mesh_vertices ++ [mesh.1.vertices_],
            mesh_colors := acc.mesh_colors ++ [mesh.1.vertex_colors_],
            mesh_triangles := acc.mesh_triangles ++ [mesh.1.triangles_],
            mesh_transforms := acc.mesh_transforms ++ [mesh.2] }
    | .error e => .error e) 0 vis_mesh.length
    { mesh_vertices := [], mesh_colors := [], mesh_triangles := [], mesh_transforms := [] }

/-- Callback `meshHandler`, lines 171-214. `returned` is the value of
`tsdf_volume->GetTriangleMeshes()`; the shared pointers in it are non-null. -/
def meshHandler (returned : List (TriangleMesh × Matrix4d)) (s : Pipeline) :
    Except Fault Pipeline :=
  if !s.do_integration || s.frame_counter.tmod 30 != 1 then .ok s
  else
    let s := { s.emit Event.GetTriangleMeshes with vis_mesh := returned }
    let number_meshes := s.mesh_obj.get_number_meshes
    let s := s.emit Event.get_number_meshes
    if number_meshes == s.vis_mesh.length then
      match vectorAt s.vis_mesh (lastIndex s.vis_mesh.length) with
      | .error e => .error e
      | .ok active_mesh =>
        let s := s.emit (Event.update_active_mesh active_mesh.1.vertices_
          active_mesh.1.vertex_colors_ active_mesh.1.triangles_ active_mesh.2)
        match collectTransforms s.vis_mesh with
        | .error e => .error e
        | .ok mesh_transforms => .ok (s.emit (Event.update_transforms mesh_transforms))
    else
      match collectAll s.vis_mesh with
      | .error e => .error e
      | .ok v =>
        .ok { s.emit (Event.update_mesh_vector v.mesh_vertices v.mesh_colors v.mesh_triangles
                v.mesh_transforms) with
              mesh_obj := s.mesh_obj.update_mesh_vector v.mesh_vertices }

/-- Callback `viewHandler`, lines 218-230. `click` is the value of
`mesh_win.clicked()`. -/
def viewHandler (frame : MultiCameraFrame) (click : Bool) (s : Pipeline) :
    Except Fault Pipeline :=
  let s := s.emit (Event.set_transform (Matrix4d.inverse frame.T_WS))
  let s := s.emit (Event.clicked click)
  if click then .ok { s with do_integration := !s.do_integration }
  else .ok s

/-- The loop building `keyframemap`, lines 252-254 and 307-309. -/
def buildKeyFrameMap (frameIdOut : List Int) (traj : List Matrix4d) :
    Except Fault KeyFrameMap :=
  forLoop (fun i keyframemap =>
    match vectorAt frameIdOut i with
    | .error e => .error e
    | .ok id =>
      match vectorAt traj i with
      | .error e => .error e
      | .ok pose => .ok (keyframemap.insert (id, pose))) 0 frameIdOut.length []

/-- Callback `loopHandler`, lines 241-257. `frameIdOut` and `traj` are the vectors
filled by `slam.getMappedTrajectory`. -/
def loopHandler (frameIdOut : List Int) (traj : List Matrix4d) (s : Pipeline) :
    Except Fault Pipeline :=
  let s := s.emit Event.getMappedTrajectory
  match buildKeyFrameMap frameIdOut traj with
  | .error e => .error e
  | .ok keyframemap => .ok (s.emit (Event.UpdateKeyFrames keyframemap))

/-- The statements of `main` after the acquisition loop, lines 298-327. -/
def shutdown (frameIdOut : List Int) (traj : List Matrix4d) (s : Pipeline) :
    Except Fault Pipeline :=
  let s := s.emit Event.getMappedTrajectory
  match buildKeyFrameMap frameIdOut traj with
  | .error e => .error e
  | .ok keyframemap =>
    let s := s.emit (Event.SaveFrame_updateTransforms keyframemap)
    let s := s.emit Event.ExtractTotalTriangleMesh
    let s := s.emit Event.WriteTriangleMeshToPLY
    .ok (s.emit Event.ShutDown)

/-! ## Dispatch of the frame handlers -/

/-- The frame handlers under the names and in the order `main` registers them
(lines 161, 216, 232). -/
def frameAvailableHandlers (intr : PinholeCameraIntrinsic) (frame : MultiCameraFrame)
    (returned : List (TriangleMesh × Matrix4d)) (click : Bool) :
    List (String × (Pipeline → Except Fault Pipeline)) :=
  [("tsdfframe", tsdfFrameHandler intr frame),
   ("meshupdate", meshHandler returned),
   ("viewhandler", viewHandler frame click)]

/-- Modelled from the spec: the dispatch of `OkvisSLAMSystem` (not among the
sources) invokes every registered callback in registration order, synchronously; a
callback that fails ends the dispatch. -/
def dispatch : List (String × (Pipeline → Except Fault Pipeline)) → Pipeline →
    Except Fault Pipeline
  | [], s => .ok s
  | (_, handler) :: rest, s =>
    match handler s with
    | .ok s' => dispatch rest s'
    | .error e => .error e

/-! ## Observations on traces -/

/-- The two reconciliation paths of the mesh handler. -/
inductive Path where
  | incremental
  | full
  deriving DecidableEq, Repr

/-- The path a viewer call belongs to: `update_active_mesh` opens the incremental
path, `update_mesh_vector` is the full path. -/
def Event.path? : Event → Option Path
  | Event.update_active_mesh _ _ _ _ => some Path.incremental
  | Event.update_mesh_vector _ _ _ _ => some Path.full
  | _ => none

/-- The paths taken along a trace, in order. -/
def pathsOf (trace : List Event) : List Path := trace.filterMap Event.path?

/-- Successive runs of the mesh handler, one per returned list. -/
def refreshAll : List (List (TriangleMesh × Matrix4d)) → Pipeline → Except Fault Pipeline
  | [], s => .ok s
  | returned :: rest, s =>
    match meshHandler returned s with
    | .ok s' => refreshAll rest s'
    | .error e => .error e

/-- Whether the call is `UpdateKeyFrames` on the volume. -/
def Event.isUpdateKeyFrames : Event → Bool
  | Event.UpdateKeyFrames _ => true
  | _ => false

/-- Whether, in the trace, an `UpdateKeyFrames` call comes before an
`ExtractTotalTriangleMesh` call. -/
def correctionPrecedesExtraction : List Event → Bool
  | [] => false
  | e :: rest =>
    (e.isUpdateKeyFrames && rest.contains Event.ExtractTotalTriangleMesh)
      || correctionPrecedesExtraction rest

/-! ## Sample inputs -/

/-- A one-triangle mesh entry with pose 1. -/
def sampleEntry1 : TriangleMesh × Matrix4d :=
  ({ vertices_ := [⟨0, 0, 0⟩, ⟨1, 0, 0⟩, ⟨0, 1, 0⟩],
     vertex_colors_ := [⟨255, 0, 0⟩, ⟨0, 255, 0⟩, ⟨0, 0, 255⟩],
     triangles_ := [⟨0, 1, 2⟩] }, Matrix4d.pose 1)

/-- A one-triangle mesh entry with pose 2. -/
def sampleEntry2 : TriangleMesh × Matrix4d :=
  ({ vertices_ := [⟨5, 5, 5⟩, ⟨6, 5, 5⟩, ⟨5, 6, 5⟩],
     vertex_colors_ := [⟨9, 9, 9⟩, ⟨8, 8, 8⟩, ⟨7, 7, 7⟩],
     triangles_ := [⟨2, 1, 0⟩] }, Matrix4d.pose 2)

/-- A 640x480 colour buffer whose pixel depends on its position. -/
def sampleColor : Mat Vec3b :=
  { rows := 480, cols := 640, elem := fun i k => ⟨Fin.ofNat i, Fin.ofNat k, 7⟩ }

/-- A 640x480 depth buffer whose value depends on its position. -/
def sampleDepth : Mat uint16_t :=
  { rows := 480, cols := 640, elem := fun i k => Fin.ofNat (i * 640 + k) }

/-- A 1280x720 colour buffer. -/
def largeColor : Mat Vec3b :=
  { rows := 720, cols := 1280, elem := fun i k => ⟨Fin.ofNat i, Fin.ofNat k, 7⟩ }

/-- A 1280x720 depth buffer. -/
def largeDepth : Mat uint16_t :=
  { rows := 720, cols := 1280, elem := fun i k => Fin.ofNat (i * 1280 + k) }

/-- A frame carrying the two 640x480 sample buffers. -/
def sampleFrame : MultiCameraFrame :=
  { frameId_ := 12, T_WS := Matrix4d.pose 9, color_image := sampleColor,
    depth_image := sampleDepth }

/-- Intrinsics of a 640x480 camera. -/
def sampleIntr : PinholeCameraIntrinsic :=
  { width := 640, height := 480, fx := 600, fy := 600, cx := 320, cy := 240 }

/-- The initial state moved to the given tick. -/
def stateAt (tick : Int) : Pipeline := { Pipeline.initial with frame_counter := tick }

/-! # Theorems -/

/-! ## Loops -/

theorem forLoop_inv {σ : Type} (body : Nat → σ → Except Fault σ) (P : Nat → σ → Prop) :
    ∀ (n i : Nat) (s : σ), P i s →
      (∀ j t, i ≤ j → j < i + n → P j t → ∃ t', body j t = .ok t' ∧ P (j + 1) t') →
      ∃ s', forLoop body i n s = .ok s' ∧ P (i + n) s' := by
  intro n
  induction n with
  | zero =>
    intro i s hP _
    exact ⟨s, rfl, by simpa using hP⟩
  | succ n ih =>
    intro i s hP hstep
    obtain ⟨t', hb, hP'⟩ := hstep i s (Nat.le_refl i) (by omega) hP
    obtain ⟨s', hs', hQ⟩ := ih (i + 1) t' hP'
      (fun j t hij hjn hPj => hstep j t (by omega) (by omega) hPj)
    refine ⟨s', ?_, ?_⟩
    · simp only [forLoop, hb]
      exact hs'
    · have e : i + (n + 1) = i + 1 + n := by omega
      rw [e]
      exact hQ

/-! ## Image conversion -/

theorem put_color_step (g : Nat → Vec3b) (L n : Nat) (cur : Cursor uint8_t)
    (hpos : cur.pos = 3 * n) (hlen : cur.data.length = L)
    (hdata : ∀ j c, j < n → c < 3 → cur.data[3 * j + c]? = some ((g j).get c))
    (hroom : 3 * n + 3 ≤ L) :
    let cur' := ((cur.put ((g n).get 0)).put ((g n).get 1)).put ((g n).get 2)
    cur'.pos = 3 * (n + 1) ∧ cur'.data.length = L ∧
      ∀ j c, j < n + 1 → c < 3 → cur'.data[3 * j + c]? = some ((g j).get c) := by
  intro cur'
  refine ⟨?_, ?_, ?_⟩
  · simp only [cur', Cursor.put, hpos]
    omega
  · simp only [cur', Cursor.put, List.length_set, hlen]
  · intro j c hj hc
    simp only [cur', Cursor.put, hpos, List.getElem?_set, List.length_set, hlen]
    by_cases hjn : j < n
    · have h1 : ¬ (3 * n + 1 + 1 = 3 * j + c) := by omega
      have h2 : ¬ (3 * n + 1 = 3 * j + c) := by omega
      have h3 : ¬ (3 * n = 3 * j + c) := by omega
      simp only [h1, h2, h3, if_false]
      exact hdata j c hjn hc
    · have hjn' : j = n := by omega
      subst hjn'
      have h4 : 3 * j < L := by omega
      have h5 : 3 * j + 1 < L := by omega
      have h6 : 3 * j + 1 + 1 < L := by omega
      have hc' : c = 0 ∨ c = 1 ∨ c = 2 := by omega
      rcases hc' with rfl | rfl | rfl
      · have h1 : ¬ (3 * j + 1 + 1 = 3 * j + 0) := by omega
        have h2 : ¬ (3 * j + 1 = 3 * j + 0) := by omega
        have h3 : 3 * j = 3 * j + 0 := by omega
        rw [if_neg h1, if_neg h2, if_pos h3, if_pos h4]
      · have h1 : ¬ (3 * j + 1 + 1 = 3 * j + 1) := by omega
        rw [if_neg h1, if_pos rfl, if_pos h5]
      · have h1 : 3 * j + 1 + 1 = 3 * j + 2 := by omega
        rw [if_pos h1, if_pos h6]

theorem put_depth_step (g : Nat → uint16_t) (L n : Nat) (cur : Cursor uint16_t)
    (hpos : cur.pos = n) (hlen : cur.data.length = L)
    (hdata : ∀ j, j < n → cur.data[j]? = some (g j)) (hroom : n + 1 ≤ L) :
    (cur.put (g n)).pos = n + 1 ∧ (cur.put (g n)).data.length = L ∧
      ∀ j, j < n + 1 → (cur.put (g n)).data[j]? = some (g j) := by
  refine ⟨?_, ?_, ?_⟩
  · simp only [Cursor.put, hpos]
  · simp only [Cursor.put, List.length_set, hlen]
  · intro j hj
    simp only [Cursor.put, hpos, List.getElem?_set, hlen]
    by_cases hjn : j < n
    · have h1 : ¬ (n = j) := by omega
      rw [if_neg h1]
      exact hdata j hjn
    · have hjn' : n = j := by omega
      subst hjn'
      have h4 : n < L := by omega
      rw [if_pos rfl, if_pos h4]

theorem pixel_index_bound (h w i k : Nat) (hi : i < h) (hk : k < w) : i * w + k + 1 ≤ h * w := by
  have h1 : (i + 1) * w ≤ h * w := Nat.mul_le_mul_right w hi
  have h2 : (i + 1) * w = i * w + w := by ring
  omega

theorem pixel_index_div (w i k : Nat) (hk : k < w) : (i * w + k) / w = i := by
  have hw : 0 < w := by omega
  rw [Nat.add_comm, Nat.add_mul_div_right _ _ hw, Nat.div_eq_of_lt hk, Nat.zero_add]

theorem pixel_index_mod (w i k : Nat) (hk : k < w) : (i * w + k) % w = k := by
  rw [Nat.add_comm, Nat.add_mul_mod_self_right, Nat.mod_eq_of_lt hk]

theorem copyColor_window (color_mat : Mat Vec3b) (height width : Nat) (data : List uint8_t)
    (hrows : height ≤ color_mat.rows) (hcols : width ≤ color_mat.cols)
    (hlen : data.length = width * height * 3) :
    ∃ cur, copyColor color_mat height width { data := data, pos := 0 } = .ok cur ∧
      cur.data.length = width * height * 3 ∧
      ∀ i k c, i < height → k < width → c < 3 →
        cur.data[3 * (i * width + k) + c]? = some ((color_mat.elem i k).get c) := by
  let g : Nat → Vec3b := fun j => color_mat.elem (j / width) (j % width)
  let Inv : Nat → Cursor uint8_t → Prop := fun n cur =>
    cur.pos = 3 * n ∧ cur.data.length = width * height * 3 ∧
      ∀ j c, j < n → c < 3 → cur.data[3 * j + c]? = some ((g j).get c)
  have hrow : ∀ i cur, 0 ≤ i → i < 0 + height → Inv (i * width) cur →
      ∃ cur', forLoop (fun k cur =>
        match color_mat.at i k with
        | .ok pixel => .ok (((cur.put (pixel.get 0)).put (pixel.get 1)).put (pixel.get 2))
        | .error e => .error e) 0 width cur = .ok cur' ∧ Inv ((i + 1) * width) cur' := by
    intro i cur _ hi hInv
    have hi' : i < height := by omega
    have hmain := forLoop_inv (fun k cur =>
        match color_mat.at i k with
        | .ok pixel => Except.ok (((cur.put (pixel.get 0)).put (pixel.get 1)).put (pixel.get 2))
        | .error e => .error e) (fun k cur => Inv (i * width + k) cur) width 0 cur
        (by simpa using hInv) (by
          intro k t _ hk hIk
          have hk' : k < width := by omega
          have hat : color_mat.at i k = .ok (g (i * width + k)) := by
            have hb : i < color_mat.rows ∧ k < color_mat.cols := ⟨by omega, by omega⟩
            simp only [Mat.at, hb, and_self, if_true, g, pixel_index_div width i k hk',
              pixel_index_mod width i k hk']
          have hroom : 3 * (i * width + k) + 3 ≤ width * height * 3 := by
            have := pixel_index_bound height width i k hi' hk'
            have e : width * height * 3 = 3 * (height * width) := by ring
            omega
          obtain ⟨h1, h2, h3⟩ := hIk
          have hstep := put_color_step g (width * height * 3) (i * width + k) t h1 h2 h3 hroom
          refine ⟨_, ?_, hstep⟩
          simp only [hat])
    obtain ⟨cur', hc, hI⟩ := hmain
    refine ⟨cur', hc, ?_⟩
    have e : (i + 1) * width = i * width + (0 + width) := by ring
    rw [e]
    exact hI
  have h0 : Inv (0 * width) { data := data, pos := 0 } := by
    refine ⟨by simp, hlen, ?_⟩
    intro j c hj
    simp at hj
  obtain ⟨cur, hcur, hpos, hl, hd⟩ := forLoop_inv _ (fun i cur => Inv (i * width) cur)
    height 0 { data := data, pos := 0 } h0 hrow
  refine ⟨cur, hcur, hl, ?_⟩
  intro i k c hi hk hc
  have hj : i * width + k < (0 + height) * width := by
    have := pixel_index_bound height width i k hi hk
    simp only [Nat.zero_add]
    omega
  have := hd (i * width + k) c hj hc
  simpa only [g, pixel_index_div width i k hk, pixel_index_mod width i k hk] using this

theorem copyDepth_window (depth_mat : Mat uint16_t) (height width : Nat) (data : List uint16_t)
    (hrows : height ≤ depth_mat.rows) (hcols : width ≤ depth_mat.cols)
    (hlen : data.length = width * height * 1) :
    ∃ cur, copyDepth depth_mat height width { data := data, pos := 0 } = .ok cur ∧
      cur.data.length = width * height * 1 ∧
      ∀ i k, i < height → k < width →
        cur.data[i * width + k]? = some (depth_mat.elem i k) := by
  let g : Nat → uint16_t := fun j => depth_mat.elem (j / width) (j % width)
  let Inv : Nat → Cursor uint16_t → Prop := fun n cur =>
    cur.pos = n ∧ cur.data.length = width * height * 1 ∧
      ∀ j, j < n → cur.data[j]? = some (g j)
  have hrow : ∀ i cur, 0 ≤ i → i < 0 + height → Inv (i * width) cur →
      ∃ cur', forLoop (fun k cur =>
        match depth_mat.at i k with
        | .ok d => .ok (cur.put d)
        | .error e => .error e) 0 width cur = .ok cur' ∧ Inv ((i + 1) * width) cur' := by
    intro i cur _ hi hInv
    have hi' : i < height := by omega
    have hmain := forLoop_inv (fun k cur =>
        match depth_mat.at i k with
        | .ok d => Except.ok (cur.put d)
        | .error e => .error e) (fun k cur => Inv (i * width + k) cur) width 0 cur
        (by simpa using hInv) (by
          intro k t _ hk hIk
          have hk' : k < width := by omega
          have hat : depth_mat.at i k = .ok (g (i * width + k)) := by
            have hb : i < depth_mat.rows ∧ k < depth_mat.cols := ⟨by omega, by omega⟩
            simp only [Mat.at, hb, and_self, if_true, g, pixel_index_div width i k hk',
              pixel_index_mod width i k hk']
          have hroom : i * width + k + 1 ≤ width * height * 1 := by
            have := pixel_index_bound height width i k hi' hk'
            have e : width * height * 1 = height * width := by ring
            omega
          obtain ⟨h1, h2, h3⟩ := hIk
          have hstep := put_depth_step g (width * height * 1) (i * width + k) t h1 h2 h3 hroom
          refine ⟨_, ?_, hstep⟩
          simp only [hat])
    obtain ⟨cur', hc, hI⟩ := hmain
    refine ⟨cur', hc, ?_⟩
    have e : (i + 1) * width = i * width + (0 + width) := by ring
    rw [e]
    exact hI
  have h0 : Inv (0 * width) { data := data, pos := 0 } := by
    refine ⟨by simp, hlen, ?_⟩
    intro j hj
    simp at hj
  obtain ⟨cur, hcur, hpos, hl, hd⟩ := forLoop_inv _ (fun i cur => Inv (i * width) cur)
    height 0 { data := data, pos := 0 } h0 hrow
  refine ⟨cur, hcur, hl, ?_⟩
  intro i k hi hk
  have hj : i * width + k < (0 + height) * width := by
    have := pixel_index_bound height width i k hi hk
    simp only [Nat.zero_add]
    omega
  have := hd (i * width + k) hj
  simpa only [g, pixel_index_div width i k hk, pixel_index_mod width i k hk] using this

/-- For buffers of at least 480 rows and 640 columns the conversion returns, and its
two images hold the top-left 640x480 window of the inputs. -/
theorem generateRGBDImageFromCV_window (color_mat : Mat Vec3b) (depth_mat : Mat uint16_t)
    (hcr : 480 ≤ color_mat.rows) (hcc : 640 ≤ color_mat.cols)
    (hdr : 480 ≤ depth_mat.rows) (hdc : 640 ≤ depth_mat.cols) :
    ∃ img, generateRGBDImageFromCV color_mat depth_mat = .ok img ∧
      (img.color.width_ = 640 ∧ img.color.height_ = 480 ∧ img.color.num_of_channels_ = 3 ∧
        img.color.bytes_per_channel_ = 1) ∧
      (img.depth.width_ = 640 ∧ img.depth.height_ = 480 ∧ img.depth.num_of_channels_ = 1 ∧
        img.depth.bytes_per_channel_ = 2) ∧
      img.color.data_.length = 640 * 480 * 3 ∧
      (∀ i k c, i < 480 → k < 640 → c < 3 →
        img.color.data_[3 * (i * 640 + k) + c]? = some ((color_mat.elem i k).get c)) ∧
      img.depth.data_.length = 640 * 480 ∧
      (∀ i k, i < 480 → k < 640 →
        img.depth.data_[i * 640 + k]? = some (depth_mat.elem i k)) := by
  obtain ⟨pi, hpi, hpl, hpd⟩ := copyColor_window color_mat 480 640
    (List.replicate (640 * 480 * 3) 0) hcr hcc (List.length_replicate _ _)
  obtain ⟨p, hp, hl, hd⟩ := copyDepth_window depth_mat 480 640
    (List.replicate (640 * 480 * 1) 0) hdr hdc (List.length_replicate _ _)
  refine ⟨{ color := { (Image.Prepare 0 640 480 3 1 : Image uint8_t) with data_ := pi.data },
            depth := { (Image.Prepare 0 640 480 1 2 : Image uint16_t) with data_ := p.data },
            depth_scale := 1000, depth_trunc := 5, convert_rgb_to_intensity := false },
    ?_, ⟨rfl, rfl, rfl, rfl⟩, ⟨rfl, rfl, rfl, rfl⟩, hpl, hpd, hl, hd⟩
  simp only [generateRGBDImageFromCV, Image.Prepare, hpi, hp]

/-! ## Mesh handler -/

theorem lastIndex_eq_mod (size : Nat) (h : size < 2 ^ 64) :
    lastIndex size = (size + 2 ^ 64 - 1) % 2 ^ 64 := by
  unfold lastIndex
  split <;> omega

theorem vectorAt_lt {α : Type} (v : List α) (i : Nat) (h : i < v.length) :
    vectorAt v i = .ok (v.get ⟨i, h⟩) := by
  simp [vectorAt, List.getElem?_eq_getElem h]

theorem vectorAt_ge {α : Type} (v : List α) (i : Nat) (h : v.length ≤ i) :
    vectorAt v i = .error (Fault.vector_out_of_range i v.length) := by
  simp [vectorAt, List.getElem?_eq_none h]

theorem take_succ_map {α β : Type} (f : α → β) (v : List α) (i : Nat) (h : i < v.length) :
    (v.take (i + 1)).map f = (v.take i).map f ++ [f (v.get ⟨i, h⟩)] := by
  rw [List.take_succ, List.getElem?_eq_getElem h, Option.toList_some, List.map_append]
  rfl

theorem collectTransforms_eq (vis_mesh : List (TriangleMesh × Matrix4d)) :
    collectTransforms vis_mesh = .ok (vis_mesh.map Prod.snd) := by
  obtain ⟨r, hr, hP⟩ := forLoop_inv (fun i mesh_transforms =>
      match vectorAt vis_mesh i with
      | .ok entry => Except.ok (mesh_transforms ++ [entry.2])
      | .error e => .error e)
    (fun i (acc : List Matrix4d) => acc = (vis_mesh.take i).map Prod.snd)
    vis_mesh.length 0 [] (by simp) (by
      intro j t _ hj ht
      have hj' : j < vis_mesh.length := by omega
      refine ⟨t ++ [(vis_mesh.get ⟨j, hj'⟩).2], ?_, ?_⟩
      · simp only [vectorAt_lt vis_mesh j hj']
      · show t ++ [(vis_mesh.get ⟨j, hj'⟩).2] = (vis_mesh.take (j + 1)).map Prod.snd
        rw [take_succ_map Prod.snd vis_mesh j hj', ht])
  simp only [Nat.zero_add, List.take_length] at hP
  rw [← hP]
  exact hr

theorem collectAll_eq (vis_mesh : List (TriangleMesh × Matrix4d)) :
    collectAll vis_mesh = .ok
      { mesh_vertices := vis_mesh.map (fun m => m.1.vertices_),
        mesh_colors := vis_mesh.map (fun m => m.1.vertex_colors_),
        mesh_triangles := vis_mesh.map (fun m => m.1.triangles_),
        mesh_transforms := vis_mesh.map Prod.snd } := by
  obtain ⟨r, hr, hP⟩ := forLoop_inv (fun i (acc : MeshVectors) =>
      match vectorAt vis_mesh i with
      | .ok mesh =>
        Except.ok { mesh_vertices := acc.mesh_vertices ++ [mesh.1.vertices_],
                    mesh_colors := acc.mesh_colors ++ [mesh.1.vertex_colors_],
                    mesh_triangles := acc.mesh_triangles ++ [mesh.1.triangles_],
                    mesh_transforms := acc.mesh_transforms ++ [mesh.2] }
      | .error e => .error e)
    (fun i (acc : MeshVectors) => acc =
      { mesh_vertices := (vis_mesh.take i).map (fun m => m.1.vertices_),
        mesh_colors := (vis_mesh.take i).map (fun m => m.1.vertex_colors_),
        mesh_triangles := (vis_mesh.take i).map (fun m => m.1.triangles_),
        mesh_transforms := (vis_mesh.take i).map Prod.snd })
    vis_mesh.length 0
    { mesh_vertices := [], mesh_colors := [], mesh_triangles := [], mesh_transforms := [] }
    (by simp) (by
      intro j t _ hj ht
      have hj' : j < vis_mesh.length := by omega
      refine ⟨{ mesh_vertices := t.mesh_vertices ++ [(vis_mesh.get ⟨j, hj'⟩).1.vertices_],
                mesh_colors := t.mesh_colors ++ [(vis_mesh.get ⟨j, hj'⟩).1.vertex_colors_],
                mesh_triangles := t.mesh_triangles ++ [(vis_mesh.get ⟨j, hj'⟩).1.triangles_],
                mesh_transforms := t.mesh_transforms ++ [(vis_mesh.get ⟨j, hj'⟩).2] }, ?_, ?_⟩
      · simp only [vectorAt_lt vis_mesh j hj']
      · simp only [take_succ_map _ vis_mesh j hj', ht])
  simp only [Nat.zero_add, List.take_length] at hP
  rw [← hP]
  exact hr

theorem gate_closed_of_not {n : Int} {m r : Int} (flag : Bool)
    (h : ¬ (flag = true ∧ n.tmod m = r)) : (!flag || n.tmod m != r) = true := by
  cases flag <;> simp_all

theorem gate_open_of {n : Int} {m r : Int} (flag : Bool)
    (h : flag = true ∧ n.tmod m = r) : (!flag || n.tmod m != r) = false := by
  obtain ⟨h1, h2⟩ := h
  simp [h1, h2]

theorem meshHandler_closed (returned : List (TriangleMesh × Matrix4d)) (s : Pipeline)
    (h : ¬ (s.do_integration = true ∧ s.frame_counter.tmod 30 = 1)) :
    meshHandler returned s = .ok s := by
  simp only [meshHandler, gate_closed_of_not s.do_integration h, if_true]

theorem meshHandler_incremental (returned : List (TriangleMesh × Matrix4d)) (s : Pipeline)
    (h : s.do_integration = true ∧ s.frame_counter.tmod 30 = 1)
    (hne : returned ≠ []) (hlen : returned.length = s.mesh_obj.number_meshes) :
    meshHandler returned s = .ok
      { s with
        vis_mesh := returned,
        trace := s.trace ++
          [Event.GetTriangleMeshes, Event.get_number_meshes,
           Event.update_active_mesh (returned.getLast hne).1.vertices_
             (returned.getLast hne).1.vertex_colors_ (returned.getLast hne).1.triangles_
             (returned.getLast hne).2,
           Event.update_transforms (returned.map Prod.snd)] } := by
  have hpos : 0 < returned.length := List.length_pos.mpr hne
  have hidx : lastIndex returned.length = returned.length - 1 := by
    unfold lastIndex
    split <;> omega
  have hread : vectorAt returned (lastIndex returned.length) = .ok (returned.getLast hne) := by
    rw [hidx, vectorAt_lt returned (returned.length - 1) (by omega),
      List.getLast_eq_getElem]
    rfl
  simp only [meshHandler, gate_open_of s.do_integration h, Pipeline.emit,
    Mesh.get_number_meshes, hlen.symm, beq_self_eq_true, if_true, hread,
    collectTransforms_eq, List.append_assoc, List.singleton_append, List.cons_append,
    List.nil_append]
  simp

theorem meshHandler_empty_fault (s : Pipeline)
    (h : s.do_integration = true ∧ s.frame_counter.tmod 30 = 1)
    (hcount : s.mesh_obj.number_meshes = 0) :
    meshHandler [] s = .error (Fault.vector_out_of_range (2 ^ 64 - 1) 0) := by
  simp only [meshHandler, gate_open_of s.do_integration h, Pipeline.emit,
    Mesh.get_number_meshes, hcount, List.length_nil, beq_self_eq_true, if_true]
  simp [vectorAt, lastIndex]

theorem meshHandler_full (returned : List (TriangleMesh × Matrix4d)) (s : Pipeline)
    (h : s.do_integration = true ∧ s.frame_counter.tmod 30 = 1)
    (hlen : returned.length ≠ s.mesh_obj.number_meshes) :
    meshHandler returned s = .ok
      { s with
        vis_mesh := returned,
        mesh_obj := { number_meshes := returned.length },
        trace := s.trace ++
          [Event.GetTriangleMeshes, Event.get_number_meshes,
           Event.update_mesh_vector (returned.map (fun m => m.1.vertices_))
             (returned.map (fun m => m.1.vertex_colors_))
             (returned.map (fun m => m.1.triangles_)) (returned.map Prod.snd)] } := by
  have hb : (s.mesh_obj.number_meshes == returned.length) = false := by
    simp only [beq_eq_false_iff_ne, ne_eq]
    exact fun e => hlen e.symm
  simp only [meshHandler, gate_open_of s.do_integration h, Pipeline.emit,
    Mesh.get_number_meshes, hb, collectAll_eq, Mesh.update_mesh_vector, List.length_map,
    List.append_assoc, List.singleton_append]
  simp

/-! ## Integration and view handlers -/

theorem tsdfFrameHandler_closed (intr : PinholeCameraIntrinsic) (frame : MultiCameraFrame)
    (s : Pipeline) (h : ¬ (s.do_integration = true ∧ s.frame_counter.tmod 3 = 0)) :
    tsdfFrameHandler intr frame s = .ok s := by
  simp only [tsdfFrameHandler, gate_closed_of_not s.do_integration h, if_true]

theorem tsdfFrameHandler_open (intr : PinholeCameraIntrinsic) (frame : MultiCameraFrame)
    (s : Pipeline) (h : s.do_integration = true ∧ s.frame_counter.tmod 3 = 0)
    (rgbd : RGBDImage)
    (hconv : generateRGBDImageFromCV frame.color_image frame.depth_image = .ok rgbd) :
    tsdfFrameHandler intr frame s =
      .ok (s.emit (Event.Integrate rgbd intr (Matrix4d.inverse frame.T_WS))) := by
  simp [tsdfFrameHandler, gate_open_of s.do_integration h, hconv]

theorem tsdfFrameHandler_keeps_flag (intr : PinholeCameraIntrinsic) (frame : MultiCameraFrame)
    (s a : Pipeline) (h : tsdfFrameHandler intr frame s = .ok a) :
    a.do_integration = s.do_integration ∧ a.frame_counter = s.frame_counter ∧
      a.mesh_obj = s.mesh_obj := by
  by_cases hg : s.do_integration = true ∧ s.frame_counter.tmod 3 = 0
  · cases hconv : generateRGBDImageFromCV frame.color_image frame.depth_image with
    | error e =>
      simp [tsdfFrameHandler, gate_open_of s.do_integration hg, hconv] at h
    | ok rgbd =>
      rw [tsdfFrameHandler_open intr frame s hg rgbd hconv] at h
      cases h
      exact ⟨rfl, rfl, rfl⟩
  · rw [tsdfFrameHandler_closed intr frame s hg] at h
    cases h
    exact ⟨rfl, rfl, rfl⟩

theorem meshHandler_keeps_flag (returned : List (TriangleMesh × Matrix4d)) (s b : Pipeline)
    (h : meshHandler returned s = .ok b) :
    b.do_integration = s.do_integration ∧ b.frame_counter = s.frame_counter := by
  by_cases hg : s.do_integration = true ∧ s.frame_counter.tmod 30 = 1
  · by_cases hlen : returned.length = s.mesh_obj.number_meshes
    · by_cases hne : returned = []
      · subst hne
        rw [meshHandler_empty_fault s hg hlen.symm] at h
        cases h
      · rw [meshHandler_incremental returned s hg hne hlen] at h
        cases h
        exact ⟨rfl, rfl⟩
    · rw [meshHandler_full returned s hg hlen] at h
      cases h
      exact ⟨rfl, rfl⟩
  · rw [meshHandler_closed returned s hg] at h
    cases h
    exact ⟨rfl, rfl⟩

theorem dispatch_frame_handlers (intr : PinholeCameraIntrinsic) (frame : MultiCameraFrame)
    (returned : List (TriangleMesh × Matrix4d)) (click : Bool) (s a b : Pipeline)
    (ha : tsdfFrameHandler intr frame s = .ok a) (hb : meshHandler returned a = .ok b) :
    dispatch (frameAvailableHandlers intr frame returned click) s =
      viewHandler frame click b := by
  simp only [frameAvailableHandlers, dispatch, ha, hb]
  cases viewHandler frame click b <;> rfl

/-! ## Trajectory map -/

theorem zip_take_succ (frameIdOut : List Int) (traj : List Matrix4d) (j : Nat)
    (h1 : j < frameIdOut.length) (h2 : j < traj.length) :
    (frameIdOut.zip traj).take (j + 1) =
      (frameIdOut.zip traj).take j ++ [(frameIdOut.get ⟨j, h1⟩, traj.get ⟨j, h2⟩)] := by
  have hz : j < (frameIdOut.zip traj).length := by
    rw [List.length_zip]
    omega
  rw [List.take_succ, List.getElem?_eq_getElem hz, Option.toList_some, List.getElem_zip]
  rfl

theorem buildKeyFrameMap_eq (frameIdOut : List Int) (traj : List Matrix4d)
    (h : frameIdOut.length ≤ traj.length) :
    buildKeyFrameMap frameIdOut traj =
      .ok ((frameIdOut.zip traj).foldl KeyFrameMap.insert []) := by
  obtain ⟨r, hr, hP⟩ := forLoop_inv (fun i (keyframemap : KeyFrameMap) =>
      match vectorAt frameIdOut i with
      | .error e => Except.error e
      | .ok id =>
        match vectorAt traj i with
        | .error e => .error e
        | .ok pose => .ok (keyframemap.insert (id, pose)))
    (fun i (m : KeyFrameMap) => m = ((frameIdOut.zip traj).take i).foldl KeyFrameMap.insert [])
    frameIdOut.length 0 [] (by simp) (by
      intro j t _ hj ht
      have h1 : j < frameIdOut.length := by omega
      have h2 : j < traj.length := by omega
      refine ⟨KeyFrameMap.insert t (frameIdOut.get ⟨j, h1⟩, traj.get ⟨j, h2⟩), ?_, ?_⟩
      · simp only [vectorAt_lt frameIdOut j h1, vectorAt_lt traj j h2]
      · show KeyFrameMap.insert t (frameIdOut.get ⟨j, h1⟩, traj.get ⟨j, h2⟩) =
          ((frameIdOut.zip traj).take (j + 1)).foldl KeyFrameMap.insert []
        rw [zip_take_succ frameIdOut traj j h1 h2, List.foldl_append, ← ht]
        rfl)
  have hz : (frameIdOut.zip traj).length ≤ 0 + frameIdOut.length := by
    rw [List.length_zip]
    omega
  rw [List.take_of_length_le hz] at hP
  rw [← hP]
  exact hr

theorem loopHandler_eq (frameIdOut : List Int) (traj : List Matrix4d) (s : Pipeline)
    (h : frameIdOut.length ≤ traj.length) :
    loopHandler frameIdOut traj s = .ok
      { s with trace := s.trace ++
          [Event.getMappedTrajectory,
           Event.UpdateKeyFrames ((frameIdOut.zip traj).foldl KeyFrameMap.insert [])] } := by
  simp [loopHandler, buildKeyFrameMap_eq frameIdOut traj h, Pipeline.emit]

theorem shutdown_eq (frameIdOut : List Int) (traj : List Matrix4d) (s : Pipeline)
    (h : frameIdOut.length ≤ traj.length) :
    shutdown frameIdOut traj s = .ok
      { s with trace := s.trace ++
          [Event.getMappedTrajectory,
           Event.SaveFrame_updateTransforms
             ((frameIdOut.zip traj).foldl KeyFrameMap.insert []),
           Event.ExtractTotalTriangleMesh, Event.WriteTriangleMeshToPLY, Event.ShutDown] } := by
  simp [shutdown, buildKeyFrameMap_eq frameIdOut traj h, Pipeline.emit]

/-- For a pose array shorter than the id array the map-building loop reads the pose
array at its own length, outside the vector. -/
theorem loopHandler_reads_past_short_trajectory :
    loopHandler [7, 8] [Matrix4d.pose 0] Pipeline.initial =
      .error (Fault.vector_out_of_range 1 1) :=
  rfl

/-! ## One refresh, as seen on the trace -/

theorem pathsOf_append (t u : List Event) : pathsOf (t ++ u) = pathsOf t ++ pathsOf u := by
  simp [pathsOf, List.filterMap_append]

theorem pathsOf_refresh_calls (pushes : List Event) :
    pathsOf (Event.GetTriangleMeshes :: Event.get_number_meshes :: pushes) = pathsOf pushes :=
  rfl

theorem refresh_full (returned : List (TriangleMesh × Matrix4d)) (s : Pipeline)
    (h : s.do_integration = true ∧ s.frame_counter.tmod 30 = 1)
    (hlen : returned.length ≠ s.mesh_obj.number_meshes) :
    ∃ s' pushes, meshHandler returned s = .ok s' ∧
      s'.do_integration = s.do_integration ∧ s'.frame_counter = s.frame_counter ∧
      s'.mesh_obj.number_meshes = returned.length ∧
      s'.trace = s.trace ++ (Event.GetTriangleMeshes :: Event.get_number_meshes :: pushes) ∧
      pathsOf pushes = [Path.full] :=
  ⟨_, _, meshHandler_full returned s h hlen, rfl, rfl, rfl, rfl, rfl⟩

theorem refresh_incremental (returned : List (TriangleMesh × Matrix4d)) (s : Pipeline)
    (h : s.do_integration = true ∧ s.frame_counter.tmod 30 = 1)
    (hne : returned ≠ []) (hlen : returned.length = s.mesh_obj.number_meshes) :
    ∃ s' pushes, meshHandler returned s = .ok s' ∧
      s'.do_integration = s.do_integration ∧ s'.frame_counter = s.frame_counter ∧
      s'.mesh_obj.number_meshes = returned.length ∧
      s'.trace = s.trace ++ (Event.GetTriangleMeshes :: Event.get_number_meshes :: pushes) ∧
      pathsOf pushes = [Path.incremental] :=
  ⟨_, _, meshHandler_incremental returned s h hne hlen, rfl, rfl, hlen.symm, rfl, rfl⟩

theorem refresh_paths (returned : List (TriangleMesh × Matrix4d)) (s s' : Pipeline)
    (h : s.do_integration = true ∧ s.frame_counter.tmod 30 = 1)
    (hrun : meshHandler returned s = .ok s') :
    pathsOf (s'.trace.drop s.trace.length) =
      if returned.length = s.mesh_obj.number_meshes then [Path.incremental] else [Path.full] := by
  by_cases hlen : returned.length = s.mesh_obj.number_meshes
  · by_cases hne : returned = []
    · subst hne
      rw [meshHandler_empty_fault s h hlen.symm] at hrun
      cases hrun
    · obtain ⟨t, pushes, ht, _, _, _, htr, hp⟩ := refresh_incremental returned s h hne hlen
      rw [ht] at hrun
      cases hrun
      rw [htr, List.drop_left, if_pos hlen, pathsOf_refresh_calls]
      exact hp
  · obtain ⟨t, pushes, ht, _, _, _, htr, hp⟩ := refresh_full returned s h hlen
    rw [ht] at hrun
    cases hrun
    rw [htr, List.drop_left, if_neg hlen, pathsOf_refresh_calls]
    exact hp

theorem getLast?_of_ne_nil {α : Type} (l : List α) (h : l ≠ []) :
    l.getLast? = some (l.getLast h) := List.getLast?_eq_getLast l h

/-- C1: with the gate open, the mesh handler takes the incremental path
(`update_active_mesh` then `update_transforms`) exactly when the number of returned
pairs equals the viewer's tracked count, and the full path (`update_mesh_vector`)
otherwise; on the incremental branch with an empty list the read of the last entry is
outside the vector. For returned counts 1, 1, 2, 2, 3 from a tracked count of 0 the
paths are full, incremental, full, incremental, full. -/
theorem meshHandler_path_by_count (s : Pipeline) (returned : List (TriangleMesh × Matrix4d))
    (ls : List (List (TriangleMesh × Matrix4d)))
    (hen : s.do_integration = true) (htick : s.frame_counter.tmod 30 = 1) :
    (meshHandler returned s =
      if returned.length = s.mesh_obj.number_meshes then
        match returned.getLast? with
        | some active =>
          .ok { s with
                vis_mesh := returned,
                trace := s.trace ++
                  [Event.GetTriangleMeshes, Event.get_number_meshes,
                   Event.update_active_mesh active.1.vertices_ active.1.vertex_colors_
                     active.1.triangles_ active.2,
                   Event.update_transforms (returned.map Prod.snd)] }
        | none => .error (Fault.vector_out_of_range (2 ^ 64 - 1) 0)
      else
        .ok { s with
              vis_mesh := returned,
              mesh_obj := { number_meshes := returned.length },
              trace := s.trace ++
                [Event.GetTriangleMeshes, Event.get_number_meshes,
                 Event.update_mesh_vector (returned.map (fun m => m.1.vertices_))
                   (returned.map (fun m => m.1.vertex_colors_))
                   (returned.map (fun m => m.1.triangles_)) (returned.map Prod.snd)] }) ∧
    (∀ s', meshHandler returned s = .ok s' →
      (pathsOf (s'.trace.drop s.trace.length) = [Path.incremental] ↔
        returned.length = s.mesh_obj.number_meshes) ∧
      (pathsOf (s'.trace.drop s.trace.length) = [Path.full] ↔
        returned.length ≠ s.mesh_obj.number_meshes)) ∧
    (ls.map List.length = [1, 1, 2, 2, 3] → s.mesh_obj.number_meshes = 0 →
      ∃ s', refreshAll ls s = .ok s' ∧
        pathsOf (s'.trace.drop s.trace.length) =
          [Path.full, Path.incremental, Path.full, Path.incremental, Path.full]) := by
  refine ⟨?_, ?_, ?_⟩
  · by_cases hlen : returned.length = s.mesh_obj.number_meshes
    · rw [if_pos hlen]
      by_cases hne : returned = []
      · subst hne
        exact meshHandler_empty_fault s ⟨hen, htick⟩ hlen.symm
      · rw [getLast?_of_ne_nil returned hne]
        exact meshHandler_incremental returned s ⟨hen, htick⟩ hne hlen
    · rw [if_neg hlen]
      exact meshHandler_full returned s ⟨hen, htick⟩ hlen
  · intro s' hrun
    have hp := refresh_paths returned s s' ⟨hen, htick⟩ hrun
    by_cases hlen : returned.length = s.mesh_obj.number_meshes
    · rw [if_pos hlen] at hp
      simp [hp, hlen]
    · rw [if_neg hlen] at hp
      simp [hp, hlen]
  · intro hl hc
    rcases ls with _ | ⟨l1, _ | ⟨l2, _ | ⟨l3, _ | ⟨l4, _ | ⟨l5, _ | ⟨l6, rest⟩⟩⟩⟩⟩⟩ <;>
      simp at hl
    obtain ⟨h1, h2, h3, h4, h5⟩ := hl
    have ne_of_len : ∀ (l : List (TriangleMesh × Matrix4d)), 0 < l.length → l ≠ [] :=
      fun l hl => List.length_pos.mp hl
    obtain ⟨s1, p1, r1, e1, f1, c1, t1, q1⟩ :=
      refresh_full l1 s ⟨hen, htick⟩ (by omega)
    obtain ⟨s2, p2, r2, e2, f2, c2, t2, q2⟩ :=
      refresh_incremental l2 s1 ⟨by rw [e1]; exact hen, by rw [f1]; exact htick⟩
        (ne_of_len l2 (by omega)) (by omega)
    obtain ⟨s3, p3, r3, e3, f3, c3, t3, q3⟩ :=
      refresh_full l3 s2 ⟨by rw [e2, e1]; exact hen, by rw [f2, f1]; exact htick⟩ (by omega)
    obtain ⟨s4, p4, r4, e4, f4, c4, t4, q4⟩ :=
      refresh_incremental l4 s3
        ⟨by rw [e3, e2, e1]; exact hen, by rw [f3, f2, f1]; exact htick⟩
        (ne_of_len l4 (by omega)) (by omega)
    obtain ⟨s5, p5, r5, e5, f5, c5, t5, q5⟩ :=
      refresh_full l5 s4
        ⟨by rw [e4, e3, e2, e1]; exact hen, by rw [f4, f3, f2, f1]; exact htick⟩ (by omega)
    refine ⟨s5, ?_, ?_⟩
    · simp only [refreshAll, r1, r2, r3, r4, r5]
    · rw [t5, t4, t3, t2, t1]
      simp only [List.append_assoc, List.drop_left, pathsOf_append, pathsOf_refresh_calls,
        q1, q2, q3, q4, q5]
      rfl

/-- Witness for C1 at the initial state and the lists of sizes 1, 1, 2, 2, 3. -/
theorem meshHandler_path_by_count_witness :
    Pipeline.initial.do_integration = true ∧ Pipeline.initial.frame_counter.tmod 30 = 1 ∧
    (∃ s', refreshAll [[sampleEntry1], [sampleEntry1], [sampleEntry1, sampleEntry2],
        [sampleEntry1, sampleEntry2], [sampleEntry1, sampleEntry2, sampleEntry1]]
        Pipeline.initial = .ok s' ∧
      pathsOf (s'.trace.drop Pipeline.initial.trace.length) =
        [Path.full, Path.incremental, Path.full, Path.incremental, Path.full]) :=
  ⟨rfl, by decide,
    (meshHandler_path_by_count Pipeline.initial [sampleEntry1]
      [[sampleEntry1], [sampleEntry1], [sampleEntry1, sampleEntry2],
        [sampleEntry1, sampleEntry2], [sampleEntry1, sampleEntry2, sampleEntry1]]
      rfl (by decide)).2.2 rfl rfl⟩

/-! ## Gates -/

theorem tmod_eq_emod_of_nonneg (n m : Int) (hn : 0 ≤ n) (hm : 0 ≤ m) : n.tmod m = n % m :=
  Int.tmod_eq_emod hn hm

/-- Gates on the runs without an undefined read (frame images of at least 640x480, and
not the empty list against a tracked count of 0): for a non-negative `frame_counter`
the integration handler calls `Integrate` if and only if
`do_integration && frame_counter % 3 == 0`, the mesh handler calls
`GetTriangleMeshes` and pushes to the viewer if and only if
`do_integration && frame_counter % 30 == 1`, and a handler whose gate is false
returns the pipeline state unchanged, with no call made. -/
theorem gates_decide_fusion_and_extraction (intr : PinholeCameraIntrinsic)
    (frame : MultiCameraFrame) (returned : List (TriangleMesh × Matrix4d)) (s : Pipeline)
    (h0 : 0 ≤ s.frame_counter) :
    (¬ (s.do_integration = true ∧ s.frame_counter % 3 = 0) →
      tsdfFrameHandler intr frame s = .ok s) ∧
    (s.do_integration = true ∧ s.frame_counter % 3 = 0 →
      480 ≤ frame.color_image.rows → 640 ≤ frame.color_image.cols →
      480 ≤ frame.depth_image.rows → 640 ≤ frame.depth_image.cols →
      ∃ rgbd, generateRGBDImageFromCV frame.color_image frame.depth_image = .ok rgbd ∧
        tsdfFrameHandler intr frame s =
          .ok { s with trace := s.trace ++
                  [Event.Integrate rgbd intr (Matrix4d.inverse frame.T_WS)] }) ∧
    (¬ (s.do_integration = true ∧ s.frame_counter % 30 = 1) →
      meshHandler returned s = .ok s) ∧
    (s.do_integration = true ∧ s.frame_counter % 30 = 1 →
      ¬ (returned = [] ∧ s.mesh_obj.number_meshes = 0) →
      ∃ s' pushes, meshHandler returned s = .ok s' ∧
        s'.trace = s.trace ++
          (Event.GetTriangleMeshes :: Event.get_number_meshes :: pushes) ∧
        (pathsOf pushes).length = 1) := by
  have e3 : s.frame_counter.tmod 3 = s.frame_counter % 3 :=
    tmod_eq_emod_of_nonneg _ _ h0 (by decide)
  have e30 : s.frame_counter.tmod 30 = s.frame_counter % 30 :=
    tmod_eq_emod_of_nonneg _ _ h0 (by decide)
  refine ⟨?_, ?_, ?_, ?_⟩
  · intro hg
    exact tsdfFrameHandler_closed intr frame s (by rw [e3]; exact hg)
  · intro hg hcr hcc hdr hdc
    obtain ⟨rgbd, hconv, _⟩ :=
      generateRGBDImageFromCV_window frame.color_image frame.depth_image hcr hcc hdr hdc
    exact ⟨rgbd, hconv, tsdfFrameHandler_open intr frame s (by rw [e3]; exact hg) rgbd hconv⟩
  · intro hg
    exact meshHandler_closed returned s (by rw [e30]; exact hg)
  · intro hg hdef
    have hg' : s.do_integration = true ∧ s.frame_counter.tmod 30 = 1 := by
      rw [e30]
      exact hg
    by_cases hlen : returned.length = s.mesh_obj.number_meshes
    · have hne : returned ≠ [] := by
        intro hnil
        apply hdef
        refine ⟨hnil, ?_⟩
        rw [← hlen, hnil]
        rfl
      obtain ⟨s', pushes, hrun, _, _, _, htr, hp⟩ := refresh_incremental returned s hg' hne hlen
      exact ⟨s', pushes, hrun, htr, by rw [hp]; rfl⟩
    · obtain ⟨s', pushes, hrun, _, _, _, htr, hp⟩ := refresh_full returned s hg' hlen
      exact ⟨s', pushes, hrun, htr, by rw [hp]; rfl⟩

/-- Instance of the gates at the sample inputs: at tick 3 the integration handler fuses
and the mesh handler does nothing; at tick 31 the mesh handler extracts and the
integration handler does nothing. -/
theorem gates_decide_fusion_and_extraction_witness :
    (0 ≤ (stateAt 3).frame_counter ∧
      (∃ rgbd, generateRGBDImageFromCV sampleFrame.color_image sampleFrame.depth_image =
          .ok rgbd ∧
        tsdfFrameHandler sampleIntr sampleFrame (stateAt 3) =
          .ok { stateAt 3 with trace := (stateAt 3).trace ++
                  [Event.Integrate rgbd sampleIntr (Matrix4d.inverse sampleFrame.T_WS)] }) ∧
      meshHandler [sampleEntry1] (stateAt 3) = .ok (stateAt 3)) ∧
    (0 ≤ (stateAt 31).frame_counter ∧
      tsdfFrameHandler sampleIntr sampleFrame (stateAt 31) = .ok (stateAt 31) ∧
      ∃ s' pushes, meshHandler [sampleEntry1] (stateAt 31) = .ok s' ∧
        s'.trace = (stateAt 31).trace ++
          (Event.GetTriangleMeshes :: Event.get_number_meshes :: pushes) ∧
        (pathsOf pushes).length = 1) :=
  ⟨⟨by decide,
      (gates_decide_fusion_and_extraction sampleIntr sampleFrame [sampleEntry1] (stateAt 3)
        (by decide)).2.1 ⟨rfl, by decide⟩ (by decide) (by decide) (by decide) (by decide),
      (gates_decide_fusion_and_extraction sampleIntr sampleFrame [sampleEntry1] (stateAt 3)
        (by decide)).2.2.1 (by decide)⟩,
    ⟨by decide,
      (gates_decide_fusion_and_extraction sampleIntr sampleFrame [sampleEntry1] (stateAt 31)
        (by decide)).1 (by decide),
      (gates_decide_fusion_and_extraction sampleIntr sampleFrame [sampleEntry1] (stateAt 31)
        (by decide)).2.2.2 ⟨rfl, by decide⟩ (by decide)⟩⟩

/-- C2: at the initial state, tick 1 with integration enabled, the extraction gate
`do_integration && frame_counter % 30 == 1` is true and the tracked count is 0; when
the volume returns the empty list the mesh handler does not push to the viewer: it
takes the equal-count branch and reads entry `2^64 - 1` of the empty vector, so the
run has no result state. At the same state the integration gate is false and the
integration handler returns the state unchanged. -/
theorem meshHandler_open_gate_without_push :
    0 ≤ Pipeline.initial.frame_counter ∧
    (Pipeline.initial.do_integration = true ∧ Pipeline.initial.frame_counter % 30 = 1) ∧
    Pipeline.initial.mesh_obj.number_meshes = 0 ∧
    meshHandler [] Pipeline.initial = .error (Fault.vector_out_of_range (2 ^ 64 - 1) 0) ∧
    (∀ s', meshHandler [] Pipeline.initial ≠ .ok s') ∧
    ¬ (Pipeline.initial.do_integration = true ∧ Pipeline.initial.frame_counter % 3 = 0) ∧
    tsdfFrameHandler sampleIntr sampleFrame Pipeline.initial = .ok Pipeline.initial := by
  have hrun := meshHandler_empty_fault Pipeline.initial ⟨rfl, by decide⟩ rfl
  refine ⟨by decide, ⟨rfl, by decide⟩, rfl, hrun, ?_, by decide,
    tsdfFrameHandler_closed sampleIntr sampleFrame Pipeline.initial (by decide)⟩
  intro s' h
  rw [hrun] at h
  cases h

/-! ## Incremental path -/

/-- C3: for a non-empty returned list as long as the tracked count, the mesh handler
issues one `update_active_mesh` call with the vertices, vertex colours, triangles and
transform of the last entry, then one `update_transforms` call with the transforms of
all entries in list order; no other geometry is pushed and the tracked count is not
changed. -/
theorem meshHandler_incremental_calls (s : Pipeline)
    (returned : List (TriangleMesh × Matrix4d)) (hne : returned ≠ [])
    (hen : s.do_integration = true) (htick : s.frame_counter.tmod 30 = 1)
    (hlen : returned.length = s.mesh_obj.number_meshes) :
    meshHandler returned s = .ok
      { s with
        vis_mesh := returned,
        trace := s.trace ++
          [Event.GetTriangleMeshes, Event.get_number_meshes,
           Event.update_active_mesh (returned.getLast hne).1.vertices_
             (returned.getLast hne).1.vertex_colors_ (returned.getLast hne).1.triangles_
             (returned.getLast hne).2,
           Event.update_transforms (returned.map Prod.snd)] } ∧
    (returned.map Prod.snd).length = returned.length ∧
    (∀ i (hi : i < returned.length),
      (returned.map Prod.snd)[i]? = some (returned.get ⟨i, hi⟩).2) := by
  refine ⟨meshHandler_incremental returned s ⟨hen, htick⟩ hne hlen, List.length_map _ _, ?_⟩
  intro i hi
  rw [List.getElem?_map, List.getElem?_eq_getElem hi]
  rfl

/-- Witness for C3: two entries against a tracked count of 2 at tick 31. -/
theorem meshHandler_incremental_calls_witness :
    meshHandler [sampleEntry1, sampleEntry2]
        { stateAt 31 with mesh_obj := { number_meshes := 2 } } = .ok
      { stateAt 31 with
        mesh_obj := { number_meshes := 2 },
        vis_mesh := [sampleEntry1, sampleEntry2],
        trace :=
          [Event.GetTriangleMeshes, Event.get_number_meshes,
           Event.update_active_mesh sampleEntry2.1.vertices_ sampleEntry2.1.vertex_colors_
             sampleEntry2.1.triangles_ sampleEntry2.2,
           Event.update_transforms [sampleEntry1.2, sampleEntry2.2]] } :=
  (meshHandler_incremental_calls { stateAt 31 with mesh_obj := { number_meshes := 2 } }
    [sampleEntry1, sampleEntry2] (List.cons_ne_nil _ _) rfl (by decide) rfl).1

/-- C10: on the incremental branch the read of entry `size - 1` is inside the vector
if and only if the returned list is non-empty. For a non-empty list as long as the
tracked count the read yields the last entry and the handler returns; for the empty
list against a tracked count of 0, which is the state at tick 1, the handler takes
the incremental branch and reads index `2^64 - 1` of an empty vector. -/
theorem meshHandler_last_read_bounds (s : Pipeline)
    (returned : List (TriangleMesh × Matrix4d))
    (hen : s.do_integration = true) (htick : s.frame_counter.tmod 30 = 1)
    (hlen : returned.length = s.mesh_obj.number_meshes) :
    (lastIndex returned.length < returned.length ↔ returned ≠ []) ∧
    (∀ hne : returned ≠ [],
      vectorAt returned (lastIndex returned.length) = .ok (returned.getLast hne) ∧
      ∃ s', meshHandler returned s = .ok s') ∧
    (returned = [] →
      vectorAt returned (lastIndex returned.length) =
        .error (Fault.vector_out_of_range (2 ^ 64 - 1) 0) ∧
      meshHandler returned s = .error (Fault.vector_out_of_range (2 ^ 64 - 1) 0)) ∧
    (Pipeline.initial.frame_counter = 1 ∧ Pipeline.initial.mesh_obj.number_meshes = 0 ∧
      meshHandler [] Pipeline.initial = .error (Fault.vector_out_of_range (2 ^ 64 - 1) 0)) := by
  refine ⟨?_, ?_, ?_, rfl, rfl, meshHandler_empty_fault Pipeline.initial ⟨rfl, by decide⟩ rfl⟩
  · constructor
    · intro hlt hnil
      rw [hnil] at hlt
      simp at hlt
    · intro hne
      have hpos : 0 < returned.length := List.length_pos.mpr hne
      unfold lastIndex
      split <;> omega
  · intro hne
    have hpos : 0 < returned.length := List.length_pos.mpr hne
    have hidx : lastIndex returned.length = returned.length - 1 := by
      unfold lastIndex
      split <;> omega
    refine ⟨?_, _, meshHandler_incremental returned s ⟨hen, htick⟩ hne hlen⟩
    rw [hidx, vectorAt_lt returned (returned.length - 1) (by omega), List.getLast_eq_getElem]
    rfl
  · intro hnil
    subst hnil
    refine ⟨?_, meshHandler_empty_fault s ⟨hen, htick⟩ hlen.symm⟩
    simp [vectorAt, lastIndex]

/-- Witness for C10: the empty list at the initial state, tick 1. -/
theorem meshHandler_last_read_bounds_witness :
    Pipeline.initial.do_integration = true ∧ Pipeline.initial.frame_counter.tmod 30 = 1 ∧
    ([] : List (TriangleMesh × Matrix4d)).length = Pipeline.initial.mesh_obj.number_meshes ∧
    meshHandler [] Pipeline.initial = .error (Fault.vector_out_of_range (2 ^ 64 - 1) 0) :=
  ⟨rfl, by decide, rfl,
    ((meshHandler_last_read_bounds Pipeline.initial [] rfl (by decide) rfl).2.2.1 rfl).2⟩

/-! ## Shutdown and loop closure -/

/-- C4, as the claim states it, fails: at shutdown with a one-keyframe trajectory the
calls are the trajectory query, the frame saver's `updateTransforms`, the total-mesh
extraction, the PLY write and the SLAM shutdown; no `UpdateKeyFrames` call on the
volume precedes `ExtractTotalTriangleMesh`. -/
theorem shutdown_makes_no_volume_correction :
    shutdown [1] [Matrix4d.pose 0] Pipeline.initial = .ok
      { Pipeline.initial with
        trace := [Event.getMappedTrajectory,
                  Event.SaveFrame_updateTransforms [(1, Matrix4d.pose 0)],
                  Event.ExtractTotalTriangleMesh, Event.WriteTriangleMeshToPLY,
                  Event.ShutDown] } ∧
    correctionPrecedesExtraction
      [Event.getMappedTrajectory, Event.SaveFrame_updateTransforms [(1, Matrix4d.pose 0)],
       Event.ExtractTotalTriangleMesh, Event.WriteTriangleMeshToPLY, Event.ShutDown] = false :=
  ⟨rfl, by decide⟩

/-- C4 amended: whatever happened before, the shutdown sequence fetches the mapped
trajectory, builds the same map the loop-closure handler would pass to
`UpdateKeyFrames`, and hands it to the frame saver (`saveFrame->updateTransforms`)
before `ExtractTotalTriangleMesh`; it makes no `UpdateKeyFrames` call. The pose array
is at least as long as the id array. -/
theorem shutdown_updates_frame_saver_then_extracts (s : Pipeline) (frameIdOut : List Int)
    (traj : List Matrix4d) (h : frameIdOut.length ≤ traj.length) :
    ∃ keyframemap,
      buildKeyFrameMap frameIdOut traj = .ok keyframemap ∧
      shutdown frameIdOut traj s = .ok
        { s with trace := s.trace ++
            [Event.getMappedTrajectory, Event.SaveFrame_updateTransforms keyframemap,
             Event.ExtractTotalTriangleMesh, Event.WriteTriangleMeshToPLY, Event.ShutDown] } ∧
      correctionPrecedesExtraction
        [Event.getMappedTrajectory, Event.SaveFrame_updateTransforms keyframemap,
         Event.ExtractTotalTriangleMesh, Event.WriteTriangleMeshToPLY, Event.ShutDown]
        = false ∧
      loopHandler frameIdOut traj s = .ok
        { s with trace := s.trace ++
            [Event.getMappedTrajectory, Event.UpdateKeyFrames keyframemap] } :=
  ⟨_, buildKeyFrameMap_eq frameIdOut traj h, shutdown_eq frameIdOut traj s h, rfl,
    loopHandler_eq frameIdOut traj s h⟩

/-- Witness for C4 amended: two keyframes at the initial state. -/
theorem shutdown_updates_frame_saver_then_extracts_witness :
    [4, 2].length ≤ [Matrix4d.pose 0, Matrix4d.pose 1].length ∧
    ∃ keyframemap,
      buildKeyFrameMap [4, 2] [Matrix4d.pose 0, Matrix4d.pose 1] = .ok keyframemap ∧
      shutdown [4, 2] [Matrix4d.pose 0, Matrix4d.pose 1] Pipeline.initial = .ok
        { Pipeline.initial with trace := Pipeline.initial.trace ++
            [Event.getMappedTrajectory, Event.SaveFrame_updateTransforms keyframemap,
             Event.ExtractTotalTriangleMesh, Event.WriteTriangleMeshToPLY, Event.ShutDown] } ∧
      correctionPrecedesExtraction
        [Event.getMappedTrajectory, Event.SaveFrame_updateTransforms keyframemap,
         Event.ExtractTotalTriangleMesh, Event.WriteTriangleMeshToPLY, Event.ShutDown]
        = false ∧
      loopHandler [4, 2] [Matrix4d.pose 0, Matrix4d.pose 1] Pipeline.initial = .ok
        { Pipeline.initial with trace := Pipeline.initial.trace ++
            [Event.getMappedTrajectory, Event.UpdateKeyFrames keyframemap] } :=
  ⟨by decide,
    shutdown_updates_frame_saver_then_extracts Pipeline.initial [4, 2]
      [Matrix4d.pose 0, Matrix4d.pose 1] (by decide)⟩

/-- C5, as the claim states it, fails: for one keyframe id and two poses the handler
does not abandon the attempt; it calls `UpdateKeyFrames` with the map of the first
pair. -/
theorem loopHandler_applies_mismatched_trajectory :
    [(7 : Int)].length ≠ [Matrix4d.pose 0, Matrix4d.pose 1].length ∧
    loopHandler [7] [Matrix4d.pose 0, Matrix4d.pose 1] Pipeline.initial = .ok
      { Pipeline.initial with
        trace := [Event.getMappedTrajectory,
                  Event.UpdateKeyFrames [(7, Matrix4d.pose 0)]] } :=
  ⟨by decide, rfl⟩

/-- C5 amended: the loop-closure handler does not compare the two lengths. For every
query result whose pose array is at least as long as the id array, equal or longer,
it builds the map from the pairs (id `i`, pose `i`) for `i` below the number of ids,
keeping the first binding of a repeated id, and calls `UpdateKeyFrames` with it;
every pose index it reads is inside the pose array. -/
theorem loopHandler_applies_zipped_trajectory (s : Pipeline) (frameIdOut : List Int)
    (traj : List Matrix4d) (h : frameIdOut.length ≤ traj.length) :
    loopHandler frameIdOut traj s = .ok
      { s with trace := s.trace ++
          [Event.getMappedTrajectory,
           Event.UpdateKeyFrames ((frameIdOut.zip traj).foldl KeyFrameMap.insert [])] } ∧
    (frameIdOut.zip traj).length = frameIdOut.length ∧
    (∀ i, i < frameIdOut.length → ∃ pose, vectorAt traj i = .ok pose) := by
  refine ⟨loopHandler_eq frameIdOut traj s h, ?_, ?_⟩
  · rw [List.length_zip]
    omega
  · intro i hi
    exact ⟨_, vectorAt_lt traj i (by omega)⟩

/-- Witness for C5 amended: three ids, one repeated, and four poses. -/
theorem loopHandler_applies_zipped_trajectory_witness :
    [(7 : Int), 3, 7].length ≤
      [Matrix4d.pose 0, Matrix4d.pose 1, Matrix4d.pose 2, Matrix4d.pose 3].length ∧
    loopHandler [7, 3, 7] [Matrix4d.pose 0, Matrix4d.pose 1, Matrix4d.pose 2, Matrix4d.pose 3]
        Pipeline.initial = .ok
      { Pipeline.initial with trace := Pipeline.initial.trace ++
          [Event.getMappedTrajectory,
           Event.UpdateKeyFrames
             (([(7 : Int), 3, 7].zip
               [Matrix4d.pose 0, Matrix4d.pose 1, Matrix4d.pose 2, Matrix4d.pose 3]).foldl
               KeyFrameMap.insert [])] } :=
  ⟨by decide,
    (loopHandler_applies_zipped_trajectory Pipeline.initial [7, 3, 7]
      [Matrix4d.pose 0, Matrix4d.pose 1, Matrix4d.pose 2, Matrix4d.pose 3] (by decide)).1⟩

/-! ## Image conversion -/

/-- C6, as the claim states it, fails: for 1280x720 buffers, which are not 640x480,
the conversion does not fail; it returns 640x480 images. -/
theorem generateRGBDImageFromCV_accepts_larger_buffers :
    ¬ (largeColor.rows = 480 ∧ largeColor.cols = 640) ∧
    ¬ (largeDepth.rows = 480 ∧ largeDepth.cols = 640) ∧
    ∃ img, generateRGBDImageFromCV largeColor largeDepth = .ok img ∧
      img.color.width_ = 640 ∧ img.color.height_ = 480 ∧
      img.color.data_.length = 640 * 480 * 3 := by
  refine ⟨by decide, by decide, ?_⟩
  obtain ⟨img, himg, hc, _, hl, _⟩ := generateRGBDImageFromCV_window largeColor largeDepth
    (by decide) (by decide) (by decide) (by decide)
  exact ⟨img, himg, hc.1, hc.2.1, hl⟩

/-- C6 amended: `generateRGBDImageFromCV` checks no dimension. For every colour and
depth buffer of at least 480 rows and at least 640 columns, 640x480 or larger, it
returns, and its output is a 640x480 colour image and a 640x480 depth image holding,
unscaled, the top-left 640x480 window of the inputs. -/
theorem generateRGBDImageFromCV_copies_window (color_mat : Mat Vec3b)
    (depth_mat : Mat uint16_t)
    (hcr : 480 ≤ color_mat.rows) (hcc : 640 ≤ color_mat.cols)
    (hdr : 480 ≤ depth_mat.rows) (hdc : 640 ≤ depth_mat.cols) :
    ∃ img, generateRGBDImageFromCV color_mat depth_mat = .ok img ∧
      (img.color.width_ = 640 ∧ img.color.height_ = 480 ∧
        img.color.data_.length = 640 * 480 * 3) ∧
      (img.depth.width_ = 640 ∧ img.depth.height_ = 480 ∧
        img.depth.data_.length = 640 * 480) ∧
      (∀ i k c, i < 480 → k < 640 → c < 3 →
        img.color.data_[3 * (i * 640 + k) + c]? = some ((color_mat.elem i k).get c)) ∧
      (∀ i k, i < 480 → k < 640 →
        img.depth.data_[i * 640 + k]? = some (depth_mat.elem i k)) := by
  obtain ⟨img, himg, hc, hd, hcl, hcd, hdl, hdd⟩ :=
    generateRGBDImageFromCV_window color_mat depth_mat hcr hcc hdr hdc
  exact ⟨img, himg, ⟨hc.1, hc.2.1, hcl⟩, ⟨hd.1, hd.2.1, hdl⟩, hcd, hdd⟩

/-- Witness for C6 amended: the 1280x720 buffers. -/
theorem generateRGBDImageFromCV_copies_window_witness :
    (480 ≤ largeColor.rows ∧ 640 ≤ largeColor.cols ∧
      480 ≤ largeDepth.rows ∧ 640 ≤ largeDepth.cols) ∧
    ∃ img, generateRGBDImageFromCV largeColor largeDepth = .ok img ∧
      (img.color.width_ = 640 ∧ img.color.height_ = 480 ∧
        img.color.data_.length = 640 * 480 * 3) ∧
      (img.depth.width_ = 640 ∧ img.depth.height_ = 480 ∧
        img.depth.data_.length = 640 * 480) ∧
      (∀ i k c, i < 480 → k < 640 → c < 3 →
        img.color.data_[3 * (i * 640 + k) + c]? = some ((largeColor.elem i k).get c)) ∧
      (∀ i k, i < 480 → k < 640 →
        img.depth.data_[i * 640 + k]? = some (largeDepth.elem i k)) :=
  ⟨⟨by decide, by decide, by decide, by decide⟩,
    generateRGBDImageFromCV_copies_window largeColor largeDepth
      (by decide) (by decide) (by decide) (by decide)⟩

/-- C7: for a 640x480 colour buffer and a 640x480 depth buffer the conversion returns
a 3-channel 8-bit colour image of `640*480*3` bytes whose byte `3*(i*640+k)+c` is
channel `c` of the input pixel at row `i`, column `k`, and a 1-channel 16-bit depth
image of `640*480` elements whose element `i*640+k` is the input depth at row `i`,
column `k`; the values are copied unchanged. -/
theorem generateRGBDImageFromCV_copies_640x480 (color_mat : Mat Vec3b)
    (depth_mat : Mat uint16_t)
    (hcr : color_mat.rows = 480) (hcc : color_mat.cols = 640)
    (hdr : depth_mat.rows = 480) (hdc : depth_mat.cols = 640) :
    ∃ img, generateRGBDImageFromCV color_mat depth_mat = .ok img ∧
      (img.color.width_ = 640 ∧ img.color.height_ = 480 ∧ img.color.num_of_channels_ = 3 ∧
        img.color.bytes_per_channel_ = 1) ∧
      (img.depth.width_ = 640 ∧ img.depth.height_ = 480 ∧ img.depth.num_of_channels_ = 1 ∧
        img.depth.bytes_per_channel_ = 2) ∧
      img.color.data_.length = 640 * 480 * 3 ∧
      (∀ i k c, i < 480 → k < 640 → c < 3 →
        img.color.data_[3 * (i * 640 + k) + c]? = some ((color_mat.elem i k).get c)) ∧
      img.depth.data_.length = 640 * 480 ∧
      (∀ i k, i < 480 → k < 640 →
        img.depth.data_[i * 640 + k]? = some (depth_mat.elem i k)) :=
  generateRGBDImageFromCV_window color_mat depth_mat (by omega) (by omega) (by omega)
    (by omega)

/-- Witness for C7: the two 640x480 sample buffers. -/
theorem generateRGBDImageFromCV_copies_640x480_witness :
    (sampleColor.rows = 480 ∧ sampleColor.cols = 640 ∧
      sampleDepth.rows = 480 ∧ sampleDepth.cols = 640) ∧
    ∃ img, generateRGBDImageFromCV sampleColor sampleDepth = .ok img ∧
      (img.color.width_ = 640 ∧ img.color.height_ = 480 ∧ img.color.num_of_channels_ = 3 ∧
        img.color.bytes_per_channel_ = 1) ∧
      (img.depth.width_ = 640 ∧ img.depth.height_ = 480 ∧ img.depth.num_of_channels_ = 1 ∧
        img.depth.bytes_per_channel_ = 2) ∧
      img.color.data_.length = 640 * 480 * 3 ∧
      (∀ i k c, i < 480 → k < 640 → c < 3 →
        img.color.data_[3 * (i * 640 + k) + c]? = some ((sampleColor.elem i k).get c)) ∧
      img.depth.data_.length = 640 * 480 ∧
      (∀ i k, i < 480 → k < 640 →
        img.depth.data_[i * 640 + k]? = some (sampleDepth.elem i k)) :=
  ⟨⟨rfl, rfl, rfl, rfl⟩,
    generateRGBDImageFromCV_copies_640x480 sampleColor sampleDepth rfl rfl rfl rfl⟩

/-! ## Toggle -/

theorem fuse_tick_is_no_extract_tick (n : Int) (h3 : n.tmod 3 = 0) : ¬ n.tmod 30 = 1 := by
  intro h30
  have a := Int.tmod_add_tdiv n 3
  have b := Int.tmod_add_tdiv n 30
  rw [h3] at a
  rw [h30] at b
  omega

theorem viewHandler_click (frame : MultiCameraFrame) (b : Pipeline) :
    viewHandler frame true b = .ok
      { b with
        do_integration := !b.do_integration,
        trace := b.trace ++
          [Event.set_transform (Matrix4d.inverse frame.T_WS), Event.clicked true] } := by
  simp [viewHandler, Pipeline.emit]

theorem viewHandler_no_click (frame : MultiCameraFrame) (b : Pipeline) :
    viewHandler frame false b = .ok
      { b with
        trace := b.trace ++
          [Event.set_transform (Matrix4d.inverse frame.T_WS), Event.clicked false] } := by
  simp [viewHandler, Pipeline.emit]

theorem dispatch_disabled (intr : PinholeCameraIntrinsic) (frame : MultiCameraFrame)
    (returned : List (TriangleMesh × Matrix4d)) (click : Bool) (s : Pipeline)
    (h : s.do_integration = false) :
    dispatch (frameAvailableHandlers intr frame returned click) s = viewHandler frame click s := by
  have h3 : ¬ (s.do_integration = true ∧ s.frame_counter.tmod 3 = 0) := by simp [h]
  have h30 : ¬ (s.do_integration = true ∧ s.frame_counter.tmod 30 = 1) := by simp [h]
  exact dispatch_frame_handlers intr frame returned click s s s
    (tsdfFrameHandler_closed intr frame s h3) (meshHandler_closed returned s h30)

/-- C8: with the frame handlers dispatched in registration order (integration, mesh,
view), in a dispatch where the view handler consumes a click the integration and mesh
handlers have already run on the flag as it was before the flip: switching on fuses
and extracts nothing in that dispatch, switching off still fuses or extracts in it
when the tick asks for it. The state left by the dispatch carries the flipped flag,
which the gates of the next dispatch read. -/
theorem toggle_takes_effect_on_next_dispatch (intr : PinholeCameraIntrinsic)
    (frame frame2 : MultiCameraFrame) (returned returned2 : List (TriangleMesh × Matrix4d))
    (s : Pipeline) :
    (∀ a b, tsdfFrameHandler intr frame s = .ok a → meshHandler returned a = .ok b →
      a.do_integration = s.do_integration ∧ a.frame_counter = s.frame_counter ∧
      b.do_integration = s.do_integration ∧
      dispatch (frameAvailableHandlers intr frame returned true) s = .ok
        { b with
          do_integration := !s.do_integration,
          trace := b.trace ++
            [Event.set_transform (Matrix4d.inverse frame.T_WS), Event.clicked true] }) ∧
    (s.do_integration = false →
      dispatch (frameAvailableHandlers intr frame returned true) s = .ok
        { s with
          do_integration := true,
          trace := s.trace ++
            [Event.set_transform (Matrix4d.inverse frame.T_WS), Event.clicked true] }) ∧
    (s.do_integration = true → s.frame_counter.tmod 3 = 0 →
      480 ≤ frame.color_image.rows → 640 ≤ frame.color_image.cols →
      480 ≤ frame.depth_image.rows → 640 ≤ frame.depth_image.cols →
      ∃ rgbd, dispatch (frameAvailableHandlers intr frame returned true) s = .ok
        { s with
          do_integration := false,
          trace := s.trace ++
            [Event.Integrate rgbd intr (Matrix4d.inverse frame.T_WS),
             Event.set_transform (Matrix4d.inverse frame.T_WS), Event.clicked true] }) ∧
    (s.do_integration = true → s.frame_counter.tmod 30 = 1 →
      ¬ (returned = [] ∧ s.mesh_obj.number_meshes = 0) →
      ∃ b pushes, meshHandler returned s = .ok b ∧ (pathsOf pushes).length = 1 ∧
        dispatch (frameAvailableHandlers intr frame returned true) s = .ok
          { b with
            do_integration := false,
            trace := s.trace ++
              (Event.GetTriangleMeshes :: Event.get_number_meshes :: pushes) ++
              [Event.set_transform (Matrix4d.inverse frame.T_WS), Event.clicked true] }) ∧
    (∀ s1, dispatch (frameAvailableHandlers intr frame returned true) s = .ok s1 →
      s1.do_integration = (!s.do_integration) ∧
      s1.tick.do_integration = (!s.do_integration) ∧
      (s.do_integration = true →
        dispatch (frameAvailableHandlers intr frame2 returned2 false) s1.tick = .ok
          { s1.tick with
            trace := s1.trace ++
              [Event.set_transform (Matrix4d.inverse frame2.T_WS), Event.clicked false] }) ∧
      (s.do_integration = false → s1.tick.frame_counter.tmod 3 = 0 →
        480 ≤ frame2.color_image.rows → 640 ≤ frame2.color_image.cols →
        480 ≤ frame2.depth_image.rows → 640 ≤ frame2.depth_image.cols →
        ∃ rgbd, dispatch (frameAvailableHandlers intr frame2 returned2 false) s1.tick = .ok
          { s1.tick with
            trace := s1.trace ++
              [Event.Integrate rgbd intr (Matrix4d.inverse frame2.T_WS),
               Event.set_transform (Matrix4d.inverse frame2.T_WS),
               Event.clicked false] })) := by
  have hsame : ∀ a b, tsdfFrameHandler intr frame s = .ok a → meshHandler returned a = .ok b →
      a.do_integration = s.do_integration ∧ a.frame_counter = s.frame_counter ∧
      b.do_integration = s.do_integration ∧
      dispatch (frameAvailableHandlers intr frame returned true) s = .ok
        { b with
          do_integration := !s.do_integration,
          trace := b.trace ++
            [Event.set_transform (Matrix4d.inverse frame.T_WS), Event.clicked true] } := by
    intro a b ha hb
    obtain ⟨ha1, ha2, _⟩ := tsdfFrameHandler_keeps_flag intr frame s a ha
    obtain ⟨hb1, _⟩ := meshHandler_keeps_flag returned a b hb
    refine ⟨ha1, ha2, by rw [hb1, ha1], ?_⟩
    rw [dispatch_frame_handlers intr frame returned true s a b ha hb, viewHandler_click,
      hb1, ha1]
  have hfuse : ∀ (fr : MultiCameraFrame) (ret : List (TriangleMesh × Matrix4d)) (click : Bool)
      (t : Pipeline), t.do_integration = true → t.frame_counter.tmod 3 = 0 →
      480 ≤ fr.color_image.rows → 640 ≤ fr.color_image.cols →
      480 ≤ fr.depth_image.rows → 640 ≤ fr.depth_image.cols →
      ∃ rgbd, dispatch (frameAvailableHandlers intr fr ret click) t =
        viewHandler fr click (t.emit (Event.Integrate rgbd intr (Matrix4d.inverse fr.T_WS))) := by
    intro fr ret click t hen h3 hcr hcc hdr hdc
    obtain ⟨rgbd, hconv, _⟩ :=
      generateRGBDImageFromCV_window fr.color_image fr.depth_image hcr hcc hdr hdc
    refine ⟨rgbd, ?_⟩
    have hm : ¬ ((t.emit (Event.Integrate rgbd intr (Matrix4d.inverse fr.T_WS))).do_integration
        = true ∧
        (t.emit (Event.Integrate rgbd intr (Matrix4d.inverse fr.T_WS))).frame_counter.tmod 30
          = 1) := fun hc => fuse_tick_is_no_extract_tick t.frame_counter h3 hc.2
    exact dispatch_frame_handlers intr fr ret click t _ _
      (tsdfFrameHandler_open intr fr t ⟨hen, h3⟩ rgbd hconv) (meshHandler_closed ret _ hm)
  refine ⟨hsame, ?_, ?_, ?_, ?_⟩
  · intro hoff
    rw [dispatch_disabled intr frame returned true s hoff, viewHandler_click, hoff]
    rfl
  · intro hen h3 hcr hcc hdr hdc
    obtain ⟨rgbd, hd⟩ := hfuse frame returned true s hen h3 hcr hcc hdr hdc
    refine ⟨rgbd, ?_⟩
    rw [hd, viewHandler_click]
    simp [Pipeline.emit, hen]
  · intro hen h30 hdef
    have h3 : ¬ (s.do_integration = true ∧ s.frame_counter.tmod 3 = 0) :=
      fun hc => fuse_tick_is_no_extract_tick s.frame_counter hc.2 h30
    have hb : ∃ b pushes, meshHandler returned s = .ok b ∧
        b.trace = s.trace ++ (Event.GetTriangleMeshes :: Event.get_number_meshes :: pushes) ∧
        pathsOf pushes ≠ [] ∧ (pathsOf pushes).length = 1 := by
      by_cases hlen : returned.length = s.mesh_obj.number_meshes
      · have hne : returned ≠ [] := by
          intro hnil
          apply hdef
          refine ⟨hnil, ?_⟩
          rw [← hlen, hnil]
          rfl
        obtain ⟨b, pushes, hrun, _, _, _, htr, hp⟩ :=
          refresh_incremental returned s ⟨hen, h30⟩ hne hlen
        exact ⟨b, pushes, hrun, htr, by rw [hp]; simp, by rw [hp]; rfl⟩
      · obtain ⟨b, pushes, hrun, _, _, _, htr, hp⟩ := refresh_full returned s ⟨hen, h30⟩ hlen
        exact ⟨b, pushes, hrun, htr, by rw [hp]; simp, by rw [hp]; rfl⟩
    obtain ⟨b, pushes, hrun, htr, _, hp⟩ := hb
    refine ⟨b, pushes, hrun, hp, ?_⟩
    obtain ⟨_, _, _, hd⟩ := hsame s b (tsdfFrameHandler_closed intr frame s h3) hrun
    rw [hd, htr, hen]
    rfl
  · intro s1 hs1
    have hflag : s1.do_integration = (!s.do_integration) := by
      cases ha : tsdfFrameHandler intr frame s with
      | error e => simp [frameAvailableHandlers, dispatch, ha] at hs1
      | ok a =>
        cases hb : meshHandler returned a with
        | error e => simp [frameAvailableHandlers, dispatch, ha, hb] at hs1
        | ok b =>
          obtain ⟨_, _, _, hd⟩ := hsame a b ha hb
          rw [hd] at hs1
          cases hs1
          rfl
    refine ⟨hflag, hflag, ?_, ?_⟩
    · intro hen
      have hoff : s1.tick.do_integration = false := by
        show s1.do_integration = false
        rw [hflag, hen]
        rfl
      rw [dispatch_disabled intr frame2 returned2 false s1.tick hoff, viewHandler_no_click]
      rfl
    · intro hoff h3 hcr hcc hdr hdc
      have hon : s1.tick.do_integration = true := by
        show s1.do_integration = true
        rw [hflag, hoff]
        rfl
      obtain ⟨rgbd, hd⟩ := hfuse frame2 returned2 false s1.tick hon h3 hcr hcc hdr hdc
      refine ⟨rgbd, ?_⟩
      rw [hd, viewHandler_no_click]
      simp [Pipeline.emit, Pipeline.tick]

/-- Witness for C8: a click while disabled at tick 3, a fusing tick, leaves the
dispatch without fusion; a click while enabled at tick 3 still fuses in that
dispatch. -/
theorem toggle_takes_effect_on_next_dispatch_witness :
    dispatch (frameAvailableHandlers sampleIntr sampleFrame [sampleEntry1] true)
        { stateAt 3 with do_integration := false } = .ok
      { stateAt 3 with
        do_integration := true,
        trace := [Event.set_transform (Matrix4d.inverse sampleFrame.T_WS),
                  Event.clicked true] } ∧
    ∃ rgbd, dispatch (frameAvailableHandlers sampleIntr sampleFrame [sampleEntry1] true)
        (stateAt 3) = .ok
      { stateAt 3 with
        do_integration := false,
        trace := (stateAt 3).trace ++
          [Event.Integrate rgbd sampleIntr (Matrix4d.inverse sampleFrame.T_WS),
           Event.set_transform (Matrix4d.inverse sampleFrame.T_WS), Event.clicked true] } :=
  ⟨(toggle_takes_effect_on_next_dispatch sampleIntr sampleFrame sampleFrame [sampleEntry1]
      [sampleEntry1] { stateAt 3 with do_integration := false }).2.1 rfl,
    (toggle_takes_effect_on_next_dispatch sampleIntr sampleFrame sampleFrame [sampleEntry1]
      [sampleEntry1] (stateAt 3)).2.2.1 rfl (by decide) (by decide) (by decide) (by decide)
      (by decide)⟩

end ReconDemo
